import Mathlib

/-!
Verification of the configuration holder in `torch/onnx/_globals.py` and of the
device-placement contract exercised by `test/distributed/fsdp/test_fsdp_misc.py`.

The embedding follows the Python source. Exceptions raised by a method are
modelled by returning the pre-call state together with the raised error, since
the Python code raises before mutating any field.
-/

namespace Onnx

/-- Modelled from the spec: the module `torch.onnx._constants` is not part of
this excerpt; the spec describes only its shape, a current main opset version
together with stable opset versions, such that the supported set is
the main version with the stable versions (three versions in the spec example)
and the default version is itself one of the supported versions. Concrete
values are chosen to realize exactly that shape. -/
def onnx_main_opset : Int := 16

/-- Modelled from the spec: the stable opset versions of `torch.onnx._constants`. -/
def onnx_stable_opsets : List Int := [14, 15]

/-- Modelled from the spec: the default opset version of `torch.onnx._constants`;
the initial value of the version selector, which the spec requires to satisfy the
allow-list invariant, hence a member of the stable versions. -/
def onnx_default_opset : Int := 14

/-- The supported set: `[onnx_main_opset]` extended by `onnx_stable_opsets`,
exactly as the setter of `export_onnx_opset_version` builds it. -/
def supportedVersions : List Int := [onnx_main_opset] ++ onnx_stable_opsets

/-- A raised Python error. The setter of `export_onnx_opset_version` raises
`ValueError`. -/
inductive PyError where
  | valueError (msg : String)
deriving DecidableEq

/-- The state of `_InternalGlobals`. The two mode selectors are annotated
`Optional[OperatorExportTypes]` and `Optional[TrainingMode]` in the source, but
those types are external and Python enforces no annotation at assignment time,
so the fields are embedded polymorphically: `A` and `B` are arbitrary types. -/
structure InternalGlobals (A B : Type) where
  _export_onnx_opset_version : Int
  operator_export_type : Option A
  training_mode : Option B
  onnx_shape_inference : Bool
deriving DecidableEq

/-- `_InternalGlobals.__init__`. -/
def InternalGlobals.init (A B : Type) : InternalGlobals A B :=
  { _export_onnx_opset_version := onnx_default_opset
  , operator_export_type := none
  , training_mode := none
  , onnx_shape_inference := false }

/-- The property getter `export_onnx_opset_version`. -/
def InternalGlobals.export_onnx_opset_version {A B : Type}
    (g : InternalGlobals A B) : Int :=
  g._export_onnx_opset_version

/-- The property setter of `export_onnx_opset_version`: builds the supported
list (`supportedVersions` above, built the way the setter builds its local
list), raises `ValueError` when the value is not in it (before any mutation, so
the returned state is the pre-call state), otherwise stores the value. -/
def InternalGlobals.setExportOnnxOpsetVersion {A B : Type}
    (g : InternalGlobals A B) (value : Int) :
    InternalGlobals A B × Option PyError :=
  if value ∉ supportedVersions then
    (g, some (PyError.valueError ("Unsupported ONNX opset version: " ++ toString value)))
  else
    ({ g with _export_onnx_opset_version := value }, none)

/-- Direct attribute assignment `GLOBALS.operator_export_type = x` (unguarded). -/
def InternalGlobals.setOperatorExportType {A B : Type}
    (g : InternalGlobals A B) (x : Option A) : InternalGlobals A B :=
  { g with operator_export_type := x }

/-- Direct attribute assignment `GLOBALS.training_mode = x` (unguarded). -/
def InternalGlobals.setTrainingMode {A B : Type}
    (g : InternalGlobals A B) (x : Option B) : InternalGlobals A B :=
  { g with training_mode := x }

/-- Direct attribute assignment `GLOBALS.onnx_shape_inference = b` (unguarded). -/
def InternalGlobals.setOnnxShapeInference {A B : Type}
    (g : InternalGlobals A B) (b : Bool) : InternalGlobals A B :=
  { g with onnx_shape_inference := b }

/-- The states of `_InternalGlobals` reachable from `__init__` by any sequence
of field assignments in which version assignments go through the
`export_onnx_opset_version` setter. -/
inductive Reachable (A B : Type) : InternalGlobals A B → Prop where
  | init : Reachable A B (InternalGlobals.init A B)
  | setVersion (g : InternalGlobals A B) (v : Int) : Reachable A B g →
      Reachable A B (g.setExportOnnxOpsetVersion v).1
  | setOp (g : InternalGlobals A B) (x : Option A) : Reachable A B g →
      Reachable A B (g.setOperatorExportType x)
  | setTm (g : InternalGlobals A B) (x : Option B) : Reachable A B g →
      Reachable A B (g.setTrainingMode x)
  | setSi (g : InternalGlobals A B) (b : Bool) : Reachable A B g →
      Reachable A B (g.setOnnxShapeInference b)

end Onnx

namespace Onnx

/-- C1: assigning any value of the supported set (main opset version together
with the stable opset versions) to `export_onnx_opset_version` raises no error,
and a subsequent read of `export_onnx_opset_version` returns exactly that value. -/
theorem setVersion_supported_succeeds {A B : Type}
    (g : InternalGlobals A B) (v : Int) (hv : v ∈ supportedVersions) :
    (g.setExportOnnxOpsetVersion v).2 = none ∧
      ((g.setExportOnnxOpsetVersion v).1).export_onnx_opset_version = v := by
  unfold InternalGlobals.setExportOnnxOpsetVersion
  rw [if_neg (not_not.mpr hv)]
  exact ⟨rfl, rfl⟩

theorem setVersion_supported_succeeds_witness :
    (15 : Int) ∈ supportedVersions ∧
      ((InternalGlobals.init Unit Unit).setExportOnnxOpsetVersion 15).2 = none ∧
      (((InternalGlobals.init Unit Unit).setExportOnnxOpsetVersion 15).1).export_onnx_opset_version = 15 :=
  ⟨by decide, setVersion_supported_succeeds (InternalGlobals.init Unit Unit) 15 (by decide)⟩

/-- C2: assigning any value outside the supported set to
`export_onnx_opset_version` raises `ValueError`, and the stored version value
after the failed assignment equals the stored version value before it. -/
theorem setVersion_unsupported_fails {A B : Type}
    (g : InternalGlobals A B) (v : Int) (hv : v ∉ supportedVersions) :
    (g.setExportOnnxOpsetVersion v).2 =
        some (PyError.valueError ("Unsupported ONNX opset version: " ++ toString v)) ∧
      ((g.setExportOnnxOpsetVersion v).1)._export_onnx_opset_version =
        g._export_onnx_opset_version := by
  unfold InternalGlobals.setExportOnnxOpsetVersion
  rw [if_pos hv]
  exact ⟨rfl, rfl⟩

theorem setVersion_unsupported_fails_witness :
    (9999 : Int) ∉ supportedVersions ∧
      ((InternalGlobals.init Unit Unit).setExportOnnxOpsetVersion 9999).2 =
        some (PyError.valueError ("Unsupported ONNX opset version: " ++ toString (9999 : Int))) ∧
      (((InternalGlobals.init Unit Unit).setExportOnnxOpsetVersion 9999).1)._export_onnx_opset_version =
        (InternalGlobals.init Unit Unit)._export_onnx_opset_version :=
  ⟨by decide, setVersion_unsupported_fails (InternalGlobals.init Unit Unit) 9999 (by decide)⟩

/-- C3: in every reachable state of `_InternalGlobals` (the state produced by
`__init__` and every state reached by any sequence of field assignments in
which version assignments go through the setter), the stored
`_export_onnx_opset_version` belongs to the fixed allow-list of supported
versions. -/
theorem reachable_version_supported {A B : Type}
    (g : InternalGlobals A B) (h : Reachable A B g) :
    g._export_onnx_opset_version ∈ supportedVersions := by
  induction h with
  | init => show onnx_default_opset ∈ supportedVersions; decide
  | setVersion g v _ ih =>
      unfold InternalGlobals.setExportOnnxOpsetVersion
      split
      · exact ih
      · next hmem => exact not_not.mp hmem
  | setOp g x _ ih => exact ih
  | setTm g x _ ih => exact ih
  | setSi g b _ ih => exact ih

theorem reachable_version_supported_witness :
    (InternalGlobals.init Unit Unit)._export_onnx_opset_version ∈ supportedVersions :=
  reachable_version_supported (InternalGlobals.init Unit Unit) Reachable.init

/-- C4: assigning any value to `operator_export_type`, `training_mode` or
`onnx_shape_inference` is a total operation with no validation, and a
subsequent read of the field returns exactly the value written. -/
theorem unguarded_fields_set_get {A B : Type}
    (g : InternalGlobals A B) (x : Option A) (y : Option B) (b : Bool) :
    (g.setOperatorExportType x).operator_export_type = x ∧
      (g.setTrainingMode y).training_mode = y ∧
      (g.setOnnxShapeInference b).onnx_shape_inference = b :=
  ⟨rfl, rfl, rfl⟩

/-- C10: every assignment to `export_onnx_opset_version`, whether it succeeds
or raises, leaves `operator_export_type`, `training_mode` and
`onnx_shape_inference` unchanged; and assigning any of those three fields
leaves the stored version selector unchanged. -/
theorem assignments_frame {A B : Type}
    (g : InternalGlobals A B) (v : Int) (x : Option A) (y : Option B) (b : Bool) :
    ((g.setExportOnnxOpsetVersion v).1.operator_export_type = g.operator_export_type ∧
      (g.setExportOnnxOpsetVersion v).1.training_mode = g.training_mode ∧
      (g.setExportOnnxOpsetVersion v).1.onnx_shape_inference = g.onnx_shape_inference) ∧
    (g.setOperatorExportType x)._export_onnx_opset_version = g._export_onnx_opset_version ∧
    (g.setTrainingMode y)._export_onnx_opset_version = g._export_onnx_opset_version ∧
    (g.setOnnxShapeInference b)._export_onnx_opset_version = g._export_onnx_opset_version := by
  refine ⟨?_, rfl, rfl, rfl⟩
  unfold InternalGlobals.setExportOnnxOpsetVersion
  split
  · exact ⟨rfl, rfl, rfl⟩
  · exact ⟨rfl, rfl, rfl⟩

end Onnx

namespace Fsdp

/-- A torch device as observed by the tests: host memory or an accelerator
device with an explicit index. -/
inductive Device where
  | cpu
  | cuda (idx : Nat)
deriving DecidableEq

/-- An explicit device specifier passed as the `device_id` argument: a bare
accelerator index or a full device handle. -/
inductive DeviceId where
  | index (i : Nat)
  | device (d : Device)
deriving DecidableEq

/-- A module as the tests observe it: the device of each of its parameters. -/
structure NNModule where
  params : List Device
deriving DecidableEq

/-- The process context of one worker: its rank and its current accelerator
device index (the tests bind rank `r` to accelerator `r`). -/
structure Ctx where
  rank : Nat
  current_device : Nat
deriving DecidableEq

/-- Resolving a device specifier to the device it names: a bare index names
the accelerator with that index. -/
def resolveDeviceId (_ctx : Ctx) : DeviceId → Device
  | DeviceId.index i => Device.cuda i
  | DeviceId.device d => d

/-- Rendering a device the way the test regexes name it. -/
def Device.describe : Device → String
  | Device.cpu => "cpu"
  | Device.cuda i => "cuda:" ++ toString i

/-- The runtime errors the tests expect out of the wrapper constructor. Each
carries the data its message names. -/
inductive FsdpError where
  | multiDevice (msg : String)
  | deviceMismatch (rank : Nat) (given actual : Device)
  | inconsistentComputeDevice (compute given : Device)
deriving DecidableEq

/-- The message of each error, as the test regexes match it. -/
def FsdpError.message : FsdpError → String
  | FsdpError.multiDevice msg => msg
  | FsdpError.deviceMismatch rank given actual =>
      "Module on rank " ++ toString rank ++ " is given device_id " ++
        given.describe ++ ", but is on " ++ actual.describe
  | FsdpError.inconsistentComputeDevice compute given =>
      "Inconsistent compute_device and device_id: " ++
        compute.describe ++ " vs " ++ given.describe

/-- Modelled from the spec: the device-placement behavior of the external
sharded-parameter wrapper constructor (`FullyShardedDataParallel.__init__`),
which is not part of this excerpt; only its tests are. Behavior, following the
spec and the assertions of `test_fsdp_misc.py`:
a module whose parameters span more than one device type or index is rejected;
a module with no parameters undergoes no device movement, device inference is
deferred, and the compute device is the current accelerator, checked against
any given specifier; a host-memory module is moved to the device named by a
given specifier and otherwise stays on host memory; an accelerator-resident
module must already be on the device named by a given specifier, else a
descriptive error naming both devices is raised. -/
def fsdpInit (ctx : Ctx) (m : NNModule) (device_id : Option DeviceId) :
    Except FsdpError NNModule :=
  let devices := m.params.dedup
  if 2 ≤ devices.length then
    Except.error (FsdpError.multiDevice ("FSDP only supports single device modules"))
  else
    match m.params with
    | [] =>
        match device_id with
        | none => Except.ok m
        | some did =>
            let compute := Device.cuda ctx.current_device
            if resolveDeviceId ctx did = compute then Except.ok m
            else Except.error
              (FsdpError.inconsistentComputeDevice compute (resolveDeviceId ctx did))
    | d :: _ =>
        match device_id with
        | none => Except.ok m
        | some did =>
            let target := resolveDeviceId ctx did
            match d with
            | Device.cpu => Except.ok { params := m.params.map (fun _ => target) }
            | Device.cuda j =>
                if target = Device.cuda j then Except.ok m
                else Except.error
                  (FsdpError.deviceMismatch ctx.rank target (Device.cuda j))

/-- Moving every parameter of a wrapped module onto the current accelerator
(`.cuda()`). -/
def NNModule.cudaMove (m : NNModule) (ctx : Ctx) : NNModule :=
  { params := m.params.map (fun _ => Device.cuda ctx.current_device) }

/-- Modelled from the spec: a module is trainable on device `d` (a forward and
a backward pass can be performed) when it has parameters and they all reside
on the single device `d`. -/
def trainableOn (m : NNModule) (d : Device) : Prop :=
  m.params ≠ [] ∧ ∀ p ∈ m.params, p = d

/-- A list whose members are all equal to `d` has at most one distinct
element. -/
theorem dedup_length_le_one_of_all_eq (l : List Device) (d : Device)
    (h : ∀ p ∈ l, p = d) : l.dedup.length ≤ 1 := by
  cases hd : l.dedup with
  | nil => simp
  | cons a t =>
      cases ht : t with
      | nil => simp
      | cons b s =>
          exfalso
          have hnd : l.dedup.Nodup := l.nodup_dedup
          rw [hd, ht] at hnd
          have ha : a ∈ l := List.mem_dedup.mp (by rw [hd]; exact List.mem_cons_self a t)
          have hb : b ∈ l := List.mem_dedup.mp
            (by rw [hd, ht]; exact List.mem_cons_of_mem a (List.mem_cons_self b s))
          have hab : a = b := (h a ha).trans (h b hb).symm
          rw [List.nodup_cons] at hnd
          exact hnd.1 (by rw [hab]; exact List.mem_cons_self b s)

/-- A list containing two distinct members has at least two distinct
elements. -/
theorem two_le_dedup_length_of_ne (l : List Device) (d1 d2 : Device)
    (h1 : d1 ∈ l) (h2 : d2 ∈ l) (hne : d1 ≠ d2) : 2 ≤ l.dedup.length := by
  have h1d : d1 ∈ l.dedup := List.mem_dedup.mpr h1
  have h2d : d2 ∈ l.dedup := List.mem_dedup.mpr h2
  cases hd : l.dedup with
  | nil => rw [hd] at h1d; exact absurd h1d (List.not_mem_nil d1)
  | cons a t =>
      cases t with
      | nil =>
          rw [hd] at h1d h2d
          have e1 : d1 = a := by simpa using h1d
          have e2 : d2 = a := by simpa using h2d
          exact absurd (e1.trans e2.symm) hne
      | cons b s => simp

/-- All members of a list with at most one distinct element are equal. -/
theorem eq_of_mem_of_dedup_length_le_one (l : List Device) (hl : l.dedup.length ≤ 1)
    {p q : Device} (hp : p ∈ l) (hq : q ∈ l) : p = q := by
  have hpd : p ∈ l.dedup := List.mem_dedup.mpr hp
  have hqd : q ∈ l.dedup := List.mem_dedup.mpr hq
  cases he : l.dedup with
  | nil => rw [he] at hpd; exact absurd hpd (List.not_mem_nil p)
  | cons a t =>
      cases t with
      | nil =>
          rw [he] at hpd hqd
          have e1 : p = a := by simpa using hpd
          have e2 : q = a := by simpa using hqd
          exact e1.trans e2.symm
      | cons b s =>
          rw [he] at hl
          simp only [List.length_cons] at hl
          omega

/-- C5: whenever the wrapper constructor given an explicit device specifier (a
bare index or a full device handle) succeeds on a module that has parameters,
every parameter of the wrapped module resides on one single device, namely the
device named by the specifier. -/
theorem fsdp_device_id_placement (ctx : Ctx) (m m' : NNModule) (did : DeviceId)
    (hne : m.params ≠ []) (hok : fsdpInit ctx m (some did) = Except.ok m') :
    m'.params ≠ [] ∧ ∀ p ∈ m'.params, p = resolveDeviceId ctx did := by
  obtain ⟨ps⟩ := m
  cases ps with
  | nil => exact absurd rfl hne
  | cons d tl =>
      by_cases hlen : 2 ≤ (d :: tl).dedup.length
      · rw [fsdpInit] at hok
        rw [if_pos hlen] at hok
        exact absurd hok (by simp)
      · have hle : (d :: tl).dedup.length ≤ 1 := by omega
        cases d with
        | cpu =>
            rw [fsdpInit] at hok
            rw [if_neg hlen] at hok
            simp only [Except.ok.injEq] at hok
            subst hok
            constructor
            · simp
            · intro p hp
              simp only [List.mem_map] at hp
              obtain ⟨q, _, hq⟩ := hp
              exact hq.symm
        | cuda j =>
            rw [fsdpInit] at hok
            rw [if_neg hlen] at hok
            dsimp only at hok
            by_cases htgt : resolveDeviceId ctx did = Device.cuda j
            · rw [if_pos htgt] at hok
              simp only [Except.ok.injEq] at hok
              subst hok
              refine ⟨by simp, ?_⟩
              intro p hp
              rw [htgt]
              exact eq_of_mem_of_dedup_length_le_one (Device.cuda j :: tl) hle hp
                (List.mem_cons_self _ tl)
            · rw [if_neg htgt] at hok
              exact absurd hok (by simp)

theorem fsdp_device_id_placement_witness :
    (NNModule.mk [Device.cpu, Device.cpu]).params ≠ [] ∧
      fsdpInit (Ctx.mk 0 0) (NNModule.mk [Device.cpu, Device.cpu]) (some (DeviceId.index 1)) =
        Except.ok (NNModule.mk [Device.cuda 1, Device.cuda 1]) ∧
      ((NNModule.mk [Device.cuda 1, Device.cuda 1]).params ≠ [] ∧
        ∀ p ∈ (NNModule.mk [Device.cuda 1, Device.cuda 1]).params,
          p = resolveDeviceId (Ctx.mk 0 0) (DeviceId.index 1)) :=
  ⟨by decide, by rfl,
    fsdp_device_id_placement (Ctx.mk 0 0) (NNModule.mk [Device.cpu, Device.cpu])
      (NNModule.mk [Device.cuda 1, Device.cuda 1]) (DeviceId.index 1) (by decide) (by rfl)⟩

/-- C6: a module whose parameters all reside on an accelerator device different
from the device named by the explicit specifier is rejected by the wrapper
constructor with the device-mismatch runtime error that names both devices (the
error is the value the constructor returns, propagated unmodified). -/
theorem fsdp_device_mismatch_fails (ctx : Ctx) (m : NNModule) (did : DeviceId) (i j : Nat)
    (hne : m.params ≠ []) (hj : ∀ p ∈ m.params, p = Device.cuda j)
    (hdid : resolveDeviceId ctx did = Device.cuda i) (hij : i ≠ j) :
    fsdpInit ctx m (some did) =
      Except.error (FsdpError.deviceMismatch ctx.rank (Device.cuda i) (Device.cuda j)) := by
  obtain ⟨ps⟩ := m
  cases ps with
  | nil => exact absurd rfl hne
  | cons d tl =>
      have hd : d = Device.cuda j := hj d (List.mem_cons_self d tl)
      subst hd
      have hle : (Device.cuda j :: tl).dedup.length ≤ 1 :=
        dedup_length_le_one_of_all_eq (Device.cuda j :: tl) (Device.cuda j) hj
      rw [fsdpInit]
      dsimp only
      rw [if_neg (by omega : ¬ 2 ≤ (Device.cuda j :: tl).dedup.length)]
      rw [hdid]
      rw [if_neg (by simpa using hij)]

theorem fsdp_device_mismatch_fails_witness :
    (NNModule.mk [Device.cuda 1]).params ≠ [] ∧
      (∀ p ∈ (NNModule.mk [Device.cuda 1]).params, p = Device.cuda 1) ∧
      resolveDeviceId (Ctx.mk 1 1) (DeviceId.index 0) = Device.cuda 0 ∧
      fsdpInit (Ctx.mk 1 1) (NNModule.mk [Device.cuda 1]) (some (DeviceId.index 0)) =
        Except.error (FsdpError.deviceMismatch 1 (Device.cuda 0) (Device.cuda 1)) :=
  ⟨by decide, by decide, by decide,
    fsdp_device_mismatch_fails (Ctx.mk 1 1) (NNModule.mk [Device.cuda 1]) (DeviceId.index 0)
      0 1 (by decide) (by decide) (by decide) (by decide)⟩

/-- C7: a module whose parameters span more than one device type or device
index is rejected by the wrapper constructor with the runtime error stating
that only single-device modules are supported. -/
theorem fsdp_multi_device_fails (ctx : Ctx) (m : NNModule) (device_id : Option DeviceId)
    (d1 d2 : Device) (h1 : d1 ∈ m.params) (h2 : d2 ∈ m.params) (hne : d1 ≠ d2) :
    fsdpInit ctx m device_id =
      Except.error (FsdpError.multiDevice ("FSDP only supports single device modules")) := by
  rw [fsdpInit.eq_def]
  rw [if_pos (two_le_dedup_length_of_ne m.params d1 d2 h1 h2 hne)]

theorem fsdp_multi_device_fails_witness :
    Device.cuda 0 ∈ (NNModule.mk [Device.cuda 0, Device.cpu]).params ∧
      Device.cpu ∈ (NNModule.mk [Device.cuda 0, Device.cpu]).params ∧
      Device.cuda 0 ≠ Device.cpu ∧
      fsdpInit (Ctx.mk 0 0) (NNModule.mk [Device.cuda 0, Device.cpu]) none =
        Except.error (FsdpError.multiDevice ("FSDP only supports single device modules")) :=
  ⟨by decide, by decide, by decide,
    fsdp_multi_device_fails (Ctx.mk 0 0) (NNModule.mk [Device.cuda 0, Device.cpu]) none
      (Device.cuda 0) Device.cpu (by decide) (by decide) (by decide)⟩

/-- C8 as stated is false: with no parameters the compute device is inferred
as the current accelerator and checked against a given specifier, so on a
worker whose current accelerator is 1, wrapping a parameterless module with
specifier index 0 raises the inconsistency error instead of succeeding. -/
theorem fsdp_no_params_device_id_can_fail :
    fsdpInit (Ctx.mk 1 1) (NNModule.mk []) (some (DeviceId.index 0)) =
        Except.error (FsdpError.inconsistentComputeDevice (Device.cuda 1) (Device.cuda 0)) ∧
      (fsdpInit (Ctx.mk 1 1) (NNModule.mk []) (some (DeviceId.index 0))).isOk = false :=
  ⟨rfl, rfl⟩

/-- C8 (amended): constructing the wrapper around a module with no parameters
succeeds and performs no device movement (the module is returned unchanged,
device inference being deferred) whenever no device specifier is given or the
given specifier names the current accelerator device; a specifier naming a
different device raises the compute-device inconsistency error. -/
theorem fsdp_no_params_noop (ctx : Ctx) (m : NNModule) (hm : m.params = []) :
    fsdpInit ctx m none = Except.ok m ∧
      ∀ did : DeviceId, resolveDeviceId ctx did = Device.cuda ctx.current_device →
        fsdpInit ctx m (some did) = Except.ok m := by
  obtain ⟨ps⟩ := m
  dsimp only at hm
  subst hm
  constructor
  · rfl
  · intro did hdid
    rw [fsdpInit]
    dsimp only
    rw [if_neg (by simp)]
    rw [if_pos hdid]

theorem fsdp_no_params_noop_witness :
    (NNModule.mk [] : NNModule).params = [] ∧
      (fsdpInit (Ctx.mk 0 0) (NNModule.mk []) none = Except.ok (NNModule.mk []) ∧
        ∀ did : DeviceId,
          resolveDeviceId (Ctx.mk 0 0) did = Device.cuda 0 →
            fsdpInit (Ctx.mk 0 0) (NNModule.mk []) (some did) = Except.ok (NNModule.mk [])) :=
  ⟨rfl, fsdp_no_params_noop (Ctx.mk 0 0) (NNModule.mk []) rfl⟩

/-- C9: a module supplied with all parameters on host memory and wrapped with
no device specifier is returned with its parameters unchanged, hence still on
host memory, and after moving the wrapped module to the current accelerator it
is trainable there (all parameters on that single accelerator device). -/
theorem fsdp_cpu_init_stays_on_cpu (ctx : Ctx) (m : NNModule)
    (hne : m.params ≠ []) (hcpu : ∀ p ∈ m.params, p = Device.cpu) :
    fsdpInit ctx m none = Except.ok m ∧
      trainableOn (m.cudaMove ctx) (Device.cuda ctx.current_device) := by
  obtain ⟨ps⟩ := m
  cases ps with
  | nil => exact absurd rfl hne
  | cons d tl =>
      have hle : (d :: tl).dedup.length ≤ 1 :=
        dedup_length_le_one_of_all_eq (d :: tl) Device.cpu hcpu
      constructor
      · rw [fsdpInit]
        dsimp only
        rw [if_neg (by omega : ¬ 2 ≤ (d :: tl).dedup.length)]
      · constructor
        · simp [NNModule.cudaMove]
        · intro p hp
          simp only [NNModule.cudaMove, List.mem_map] at hp
          obtain ⟨q, _, hq⟩ := hp
          exact hq.symm

theorem fsdp_cpu_init_stays_on_cpu_witness :
    (NNModule.mk [Device.cpu]).params ≠ [] ∧
      (∀ p ∈ (NNModule.mk [Device.cpu]).params, p = Device.cpu) ∧
      (fsdpInit (Ctx.mk 0 0) (NNModule.mk [Device.cpu]) none = Except.ok (NNModule.mk [Device.cpu]) ∧
        trainableOn ((NNModule.mk [Device.cpu]).cudaMove (Ctx.mk 0 0)) (Device.cuda 0)) :=
  ⟨by decide, by decide,
    fsdp_cpu_init_stays_on_cpu (Ctx.mk 0 0) (NNModule.mk [Device.cpu]) (by decide) (by decide)⟩

end Fsdp
